import Mathlib

/-!
Shallow embedding of the request execution engine of `vamdclib/request.py`
(the `Request` class with its node / base-url / query setters, the
`dorequest` transaction with its POST-to-GET fallback, the `doheadrequest`
metadata transaction, `getlastmodified`, and the module level query helpers
`gettransitions` and `do_species_data_request`).

The network is modelled as a function from the wire request (method, network
location, request target) to either a socket timeout or an HTTP response.
Each transaction additionally returns the list of wire requests it issued, so
that retry behaviour and the timeouts actually used are observable.  Python
exceptions are modelled with `Except`; for methods of the `Request` class the
error value carries the session state at the moment of the raise, since the
Python object keeps the mutations performed before the exception.  Attributes
that Python only creates on first assignment (`querypath`, `headers`,
`lastmodified`, ...) are modelled as `Option` fields of the session record,
`none` meaning "attribute not set" (reading it raises `AttributeError`).
-/

set_option autoImplicit false

namespace Vamdclib

/-- HTTP methods used by the module (`dorequest` uses POST with a GET
fallback, `doheadrequest` uses HEAD). -/
inductive HttpMethod where
  | POST
  | GET
  | HEAD
deriving DecidableEq, Repr

/-- Rank used to justify termination of `dorequest`: the only recursive call
replaces POST by GET. -/
def methodRank : HttpMethod → Nat
  | .POST => 1
  | _ => 0

/-- A value stored in the session's header mapping: verbatim header strings on
status 200, the integer 0 defaults otherwise. -/
inductive HVal where
  | str (s : String)
  | int (n : Int)
deriving DecidableEq, Repr

/-- An HTTP response as seen through `conn.getresponse()`: status, reason,
body (`res.read()`) and header list (`res.getheaders()`). -/
structure HttpResponse where
  status : Nat
  reason : String
  body : String
  headers : List (String × String)
deriving DecidableEq, Repr

/-- Outcome of awaiting a response on a connection: either `socket.timeout`
or a response. -/
inductive NetResult where
  | timeout
  | resp (r : HttpResponse)
deriving DecidableEq, Repr

/-- The remote side, as a function of method, network location and request
target ( `urlobj.path + "?" + urlobj.query` ). -/
abbrev Net := HttpMethod → String → String → NetResult

/-- One wire request as issued by `conn.putrequest` on a connection opened
with the given timeout. -/
structure WireReq where
  method : HttpMethod
  netloc : String
  target : String
  timeout : Nat
deriving DecidableEq, Repr

/-- Result of `urlsplit`. -/
structure UrlParts where
  scheme : String
  netloc : String
  path : String
  query : String
deriving DecidableEq, Repr

/-- Split a character list at the first occurrence of `c`; the second
component is `none` when `c` does not occur. -/
def splitAtFirstChar (l : List Char) (c : Char) : List Char × Option (List Char) :=
  match l with
  | [] => ([], none)
  | x :: xs =>
    if x = c then ([], some xs)
    else
      let p := splitAtFirstChar xs c
      (x :: p.1, p.2)

/-- Scan for the first occurrence of `://`; returns the characters before it
(the scheme) and those after it, or `none` when it does not occur. -/
def splitSchemeAux (acc : List Char) : List Char → Option (List Char × List Char)
  | ':' :: '/' :: '/' :: rest => some (acc.reverse, rest)
  | c :: rest => splitSchemeAux (c :: acc) rest
  | [] => none

/-- Model of `urlsplit`: scheme before the first `://`, then the network
location up to the first `/`, `?` or `#`, then the path up to the first `?`,
then the query string; without a scheme the whole url is path plus query. -/
def urlsplit (url : String) : UrlParts :=
  match splitSchemeAux [] url.toList with
  | some (sch, rest) =>
    let netlocChars := rest.takeWhile (fun c => (c != '/') && (c != '?') && (c != '#'))
    let after := rest.drop netlocChars.length
    let pq := splitAtFirstChar after '?'
    { scheme := String.mk sch
      netloc := String.mk netlocChars
      path := String.mk pq.1
      query := String.mk (pq.2.getD []) }
  | none =>
    let pq := splitAtFirstChar url.toList '?'
    { scheme := ""
      netloc := ""
      path := String.mk pq.1
      query := String.mk (pq.2.getD []) }

/-- Upper case hexadecimal digit. -/
def hexUpper (n : Nat) : Char :=
  if n < 10 then Char.ofNat (48 + n) else Char.ofNat (55 + n)

/-- Percent-encoding of one byte as done by `urllib.parse.quote` with the
default safe set: letters, digits, `_.-~` and `/` pass through. -/
def quoteByte (n : Nat) : String :=
  if (48 ≤ n ∧ n ≤ 57) ∨ (65 ≤ n ∧ n ≤ 90) ∨ (97 ≤ n ∧ n ≤ 122)
      ∨ n = 45 ∨ n = 46 ∨ n = 95 ∨ n = 126 ∨ n = 47 then
    String.singleton (Char.ofNat n)
  else
    "%" ++ String.singleton (hexUpper (n / 16)) ++ String.singleton (hexUpper (n % 16))

/-- UTF-8 encoding of one character as byte values. -/
def utf8Bytes (c : Char) : List Nat :=
  let n := c.toNat
  if n < 128 then [n]
  else if n < 2048 then [192 + n / 64, 128 + n % 64]
  else if n < 65536 then [224 + n / 4096, 128 + (n / 64) % 64, 128 + n % 64]
  else [240 + n / 262144, 128 + (n / 4096) % 64, 128 + (n / 64) % 64, 128 + n % 64]

/-- Model of `urllib.parse.quote` over the UTF-8 bytes of the string. -/
def quote (s : String) : String :=
  String.join (s.toList.map (fun c => String.join ((utf8Bytes c).map quoteByte)))

/-- Python `dict` assignment `d[k] = v`: replaces the value in place if the
key is present, appends otherwise. -/
def dictInsert (d : List (String × HVal)) (k : String) (v : HVal) : List (String × HVal) :=
  if k ∈ d.map Prod.fst then d.map (fun p => if p.1 = k then (k, v) else p)
  else d ++ [(k, v)]

/-- The dict obtained by inserting a list of pairs into an empty dict, as the
`for key, value in headers` loop of `doheadrequest` does. -/
def dictOfPairs (ps : List (String × HVal)) : List (String × HVal) :=
  ps.foldl (fun d kv => dictInsert d kv.1 kv.2) []

/-- The last character of a string, as read by the Python subscript `s[-1]`
(`none` on the empty string, where the subscript raises IndexError). -/
def pyLastChar (s : String) : Option Char :=
  s.toList.getLast?

/-- Python `s.split('-')`: the (possibly empty) chunks between the `-`
characters, in order. -/
def pySplitDash : List Char → List (List Char)
  | [] => [[]]
  | c :: rest =>
    let r := pySplitDash rest
    if c = '-' then [] :: r
    else
      match r with
      | h :: t => (c :: h) :: t
      | [] => [[c]]

/-- Python `str.strip()` as used implicitly by `int`: drop whitespace from
both ends. -/
def pyStrip (l : List Char) : List Char :=
  ((l.dropWhile Char.isWhitespace).reverse.dropWhile Char.isWhitespace).reverse

/-- Python `int(s)` on a string: optional surrounding whitespace, optional
sign, at least one decimal digit; `none` models a raised `ValueError`. -/
def pyInt (s : String) : Option Int :=
  let l := pyStrip s.toList
  let p : Int × List Char :=
    match l with
    | '-' :: rest => (-1, rest)
    | '+' :: rest => (1, rest)
    | _ => (1, l)
  if p.2 ≠ [] ∧ p.2.all Char.isDigit then
    some (p.1 * Int.ofNat (p.2.foldl (fun acc c => acc * 10 + (c.toNat - 48)) 0))
  else none

/-- Model of `s[s.find(c) + 1:]`: everything after the first `-`, or the
whole string when there is none (`find` returns -1, and `[0:]` is `s`). -/
def pyDashSlice (s : String) : String :=
  match s.toList.findIdx? (fun c => c = '-') with
  | some i => String.mk (s.toList.drop (i + 1))
  | none => s

/-- Modelled from the spec: the `settings` module is not in src; process
configuration supplies a default transaction timeout (`settings.TIMEOUT`),
whose concrete value the spec does not fix. -/
def TIMEOUT : Nat := 30

/-- The query descriptor (`query.Query`): operation keyword, language tag,
output format tag and free-text query body. -/
structure Query where
  Request : String
  Lang : String
  Format : String
  Query : String
deriving DecidableEq, Repr

/-- Modelled from the spec: the `query` module is not in src; the spec fixes
the descriptor fields and the path shape but not the default values of the
first three fields, so placeholder constants stand for them. -/
def defaultRequestKeyword : String := "REQUESTKEYWORD"

/-- Modelled from the spec: default query language tag (see
`defaultRequestKeyword`). -/
def defaultLang : String := "LANGTAG"

/-- Modelled from the spec: default output format tag (see
`defaultRequestKeyword`). -/
def defaultFormat : String := "FORMATTAG"

/-- Modelled from the spec: `query.Query(Query=s)` builds a descriptor with
the given body and the default operation, language and format. -/
def Query.ofString (s : String) : Vamdclib.Query :=
  { Request := defaultRequestKeyword
    Lang := defaultLang
    Format := defaultFormat
    Query := s }

/-- A node reference: identifier and base address (`node.url`). -/
structure Node where
  name : String
  url : String
deriving DecidableEq, Repr

/-- The node registry, mapping identifiers to nodes. -/
abbrev Registry := List (String × Node)

/-- Python exceptions that the embedded code can raise. -/
inductive PyErr where
  | timeOutError
  | noContentError
  | nodeDoesNotExistError
  | attributeError
  | typeError
  | indexError
  | valueError
deriving DecidableEq, Repr

/-- Modelled from the spec: the `nodes` module is not in src; the registry
collaborator exposes lookup-by-identifier, and a lookup failure for an
unregistered identifier is reported as a NodeDoesNotExist condition. -/
def findnode (reg : Registry) (ident : String) : Except PyErr Node :=
  match reg.find? (fun p => p.1 = ident) with
  | some p => .ok p.2
  | none => .error .nodeDoesNotExistError

/-- Argument of `setnode` and the module level helpers: either a node object
or an identifier string resolved through the registry. -/
inductive NodeArg where
  | byName (ident : String)
  | byNode (n : Node)
deriving DecidableEq, Repr

/-- A `results.Result` instance.  Modelled from the spec for the fields the
missing `results` module owns: `Content` holds raw response bytes,
`Xml` the response document, and `populated` records that
`populate_model` handed the document to the external parser. -/
structure Result where
  Content : Option String
  Xml : Option String
  populated : Bool
deriving DecidableEq, Repr

/-- A fresh `results.Result()`. -/
def Result.init : Result :=
  { Content := none, Xml := none, populated := false }

/-- Modelled from the spec: `populate_model` invokes the external document
parser on the stored bytes; only the fact that it ran is observable here. -/
def Result.populate_model (r : Result) : Result :=
  { r with populated := true }

/-- The session state of a `Request` instance.  `none` in an `Option` field
means the Python attribute does not exist yet; `lastmodified` is doubly
optional because Python distinguishes the attribute being absent from it
holding `None`. -/
structure Request where
  status : Nat
  reason : String
  verifyhttps : Bool
  node : Option Node
  baseurl : Option String
  query : Option Query
  querypath : Option String
  xml : Option String
  headers : Option (List (String × HVal))
  lastmodified : Option (Option Nat)
deriving DecidableEq, Repr

/-- `Request.__init__` with no node and no query: status 0, reason INIT,
certificate verification on, everything else unset. -/
def Request.init : Request :=
  { status := 0
    reason := "INIT"
    verifyhttps := true
    node := none
    baseurl := none
    query := none
    querypath := none
    xml := none
    headers := none
    lastmodified := none }

/-- `Request.setnode`: reset status/reason, resolve a string argument through
the registry, store the node, and when its url is non-empty derive the base
url by appending `sync?` after a trailing slash and `/sync?` otherwise. -/
def Request.setnode (reg : Registry) (self : Request) (node : NodeArg) :
    Except (PyErr × Request) Request :=
  let self := { self with status := 0, reason := "INIT" }
  match (match node with
         | .byName ident => findnode reg ident
         | .byNode n => Except.ok n) with
  | .error e => .error (e, self)
  | .ok n =>
    let self := { self with node := some n }
    if n.url.length = 0 then
      .ok self
    else
      if pyLastChar n.url = some '/' then
        .ok { self with baseurl := some (n.url ++ "sync?") }
      else
        .ok { self with baseurl := some (n.url ++ "/sync?") }

/-- `Request.setbaseurl`: store the address, then append `sync?` or `/sync?`
according to the trailing character; on an empty address the subscript
`self.baseurl[-1]` raises IndexError with the bare address already stored. -/
def Request.setbaseurl (self : Request) (baseurl : String) :
    Except (PyErr × Request) Request :=
  let self := { self with baseurl := some baseurl }
  match pyLastChar baseurl with
  | none => .error (.indexError, self)
  | some c =>
    if c = '/' then
      .ok { self with baseurl := some (baseurl ++ "sync?") }
    else
      .ok { self with baseurl := some (baseurl ++ "/sync?") }

/-- `Request.__setquerypath`: format the query path from the stored
descriptor, percent-encoding the query body.  Only called right after the
descriptor is stored, so the `none` branch is unreachable from this file. -/
def Request.setquerypath (self : Request) : Request :=
  match self.query with
  | some q =>
    let qp := "REQUEST=" ++ q.Request ++ "&LANG=" ++ q.Lang ++ "&FORMAT=" ++ q.Format
              ++ "&QUERY=" ++ quote q.Query
    { self with querypath := some qp }
  | none => self

/-- Argument of `setquery`: a `query.Query` instance, a string, or any value
of another type (the silently ignored case). -/
inductive QueryArg where
  | qobj (q : Query)
  | str (s : String)
  | other
deriving DecidableEq, Repr

/-- `Request.setquery`: reset status/reason, then store the descriptor (a
string is wrapped via `Query(Query=...)`) and recompute the query path; any
other argument type is silently ignored. -/
def Request.setquery (self : Request) (query : QueryArg) : Request :=
  let self := { self with status := 0, reason := "INIT" }
  match query with
  | .qobj q => Request.setquerypath { self with query := some q }
  | .str s => Request.setquerypath { self with query := some (Query.ofString s) }
  | .other => self

/-- `Request.dorequest`: issue the request, record status/reason, and branch:
200 wraps (and optionally parses) the body, 400 after a POST re-invokes the
method with GET and the default timeout, anything else yields no result.  A
socket timeout sets status 408 / reason "Socket timeout" and raises. -/
def Request.dorequest (net : Net) (timeout : Nat) (method : HttpMethod)
    (parsexsams : Bool) (self : Request) :
    List WireReq × Except (PyErr × Request) (Request × Option Result) :=
  let self := { self with xml := none }
  match self.baseurl with
  | none => ([], .error (.typeError, self))
  | some b =>
    match self.querypath with
    | none => ([], .error (.attributeError, self))
    | some p =>
      let u := urlsplit (b ++ p)
      let target := u.path ++ "?" ++ u.query
      let wr : WireReq :=
        { method := method, netloc := u.netloc, target := target, timeout := timeout }
      match net method u.netloc target with
      | .timeout =>
        ([wr], .error (.timeOutError,
                       { self with status := 408, reason := "Socket timeout" }))
      | .resp res =>
        let self := { self with status := res.status, reason := res.reason }
        if parsexsams = false then
          if res.status = 200 then
            ([wr], .ok (self, some { Result.init with Content := some res.body }))
          else if h : res.status = 400 ∧ method = HttpMethod.POST then
            let sub := Request.dorequest net TIMEOUT .GET parsexsams self
            (wr :: sub.1, sub.2)
          else
            ([wr], .ok (self, none))
        else
          if res.status = 200 then
            let self := { self with xml := some res.body }
            ([wr], .ok (self,
                        some (Result.populate_model
                                { Result.init with Xml := some res.body })))
          else if h : res.status = 400 ∧ method = HttpMethod.POST then
            let sub := Request.dorequest net TIMEOUT .GET parsexsams self
            (wr :: sub.1, sub.2)
          else
            ([wr], .ok (self, none))
termination_by methodRank method
decreasing_by
  all_goals simp [h.2, methodRank]

/-- The eight default metadata headers built by `doheadrequest` for any
status other than 200. -/
def default_headers : List (String × HVal) :=
  [("vamdc-count-species", .int 0),
   ("vamdc-count-states", .int 0),
   ("vamdc-truncated", .int 0),
   ("vamdc-count-molecules", .int 0),
   ("vamdc-count-sources", .int 0),
   ("vamdc-approx-size", .int 0),
   ("vamdc-count-radiative", .int 0),
   ("vamdc-count-atoms", .int 0)]

/-- `Request.doheadrequest`: reset the header mapping, issue a HEAD request,
and fill the mapping from the response headers on 200 or from the eight zero
defaults on 204, 408 and any other status; a socket timeout sets status 408 /
reason "Socket timeout" and raises. -/
def Request.doheadrequest (net : Net) (timeout : Nat) (self : Request) :
    List WireReq × Except (PyErr × Request) Request :=
  let self := { self with headers := some [] }
  match self.baseurl with
  | none => ([], .error (.typeError, self))
  | some b =>
    match self.querypath with
    | none => ([], .error (.attributeError, self))
    | some p =>
      let u := urlsplit (b ++ p)
      let target := u.path ++ "?" ++ u.query
      let wr : WireReq :=
        { method := .HEAD, netloc := u.netloc, target := target, timeout := timeout }
      match net .HEAD u.netloc target with
      | .timeout =>
        ([wr], .error (.timeOutError,
                       { self with status := 408, reason := "Socket timeout" }))
      | .resp res =>
        let self := { self with status := res.status, reason := res.reason }
        let hs : List (String × HVal) :=
          if res.status = 200 then
            res.headers.map (fun kv => (kv.1, HVal.str kv.2))
          else if res.status = 204 then
            default_headers
          else if res.status = 408 then
            default_headers
          else
            default_headers
        ([wr], .ok { self with headers := some (dictOfPairs hs) })

/-- `Request.getlastmodified`: refresh the headers through `doheadrequest`
when the status is not 200, then parse a `last-modified` entry (a parse
failure is printed and leaves `self.lastmodified` untouched); without the
entry, 204 raises NoContent and otherwise the timestamp is set to `None`.
Finally `self.lastmodified` is returned, which raises AttributeError when
the attribute was never assigned. -/
def Request.getlastmodified (parser : String → Option Nat) (net : Net)
    (self : Request) :
    List WireReq × Except (PyErr × Request) (Request × Option Nat) :=
  let step :=
    if self.status ≠ 200 then Request.doheadrequest net TIMEOUT self
    else ([], .ok self)
  match step with
  | (tr, .error e) => (tr, .error e)
  | (tr, .ok s1) =>
    match s1.headers with
    | none => (tr, .error (.attributeError, s1))
    | some hmap =>
      if hmap.map Prod.fst |>.contains "last-modified" then
        let v := ((hmap.find? (fun p => p.1 = "last-modified")).map Prod.snd).getD (.int 0)
        let s2 :=
          match v with
          | .str t =>
            match parser t with
            | some d => { s1 with lastmodified := some (some d) }
            | none => s1
          | .int _ => s1
        match s2.lastmodified with
        | none => (tr, .error (.attributeError, s2))
        | some lm => (tr, .ok (s2, lm))
      else
        if s1.status = 204 then
          (tr, .error (.noContentError, s1))
        else
          let s2 := { s1 with lastmodified := some none }
          (tr, .ok (s2, none))

/-- The fixed query text built by `Request.getspecies`. -/
def getspecies_querystring : String :=
  "SELECT SPECIES WHERE ((InchiKey!='UGFAIRIUMAVXCW'))"

/-- `Request.getspecies`: set the fixed species query and execute the request
with all default parameters. -/
def Request.getspecies (net : Net) (self : Request) :
    List WireReq × Except (PyErr × Request) (Request × Option Result) :=
  let self := Request.setquery self (.str getspecies_querystring)
  Request.dorequest net TIMEOUT .POST true self

/-- Argument of `gettransitions`: a species identifier given as an integer or
as a string. -/
inductive SpeciesIdArg where
  | int (n : Int)
  | str (s : String)
deriving DecidableEq, Repr

/-- The query string built by `gettransitions`: a string identifier is
sliced after its first `-` and parsed as an integer (`none` models the
ValueError of `int`), an integer is used as is. -/
def gettransitions_querystring (speciesid : SpeciesIdArg) : Option String :=
  match speciesid with
  | .int n => some ("SELECT RadiativeTransitions WHERE SpeciesID = " ++ toString n)
  | .str s =>
    (pyInt (pyDashSlice s)).map
      (fun n => "SELECT RadiativeTransitions WHERE SpeciesID = " ++ toString n)

/-- Module level `gettransitions`: normalize the species identifier, build
the transitions query, and run it on a fresh `Request` against the node. -/
def gettransitions (reg : Registry) (net : Net) (node : NodeArg)
    (speciesid : SpeciesIdArg) : List WireReq × Except PyErr (Option Result) :=
  match gettransitions_querystring speciesid with
  | none => ([], .error .valueError)
  | some qs =>
    match Request.setnode reg Request.init node with
    | .error e => ([], .error e.1)
    | .ok s1 =>
      let s2 := Request.setquery s1 (.str qs)
      match Request.dorequest net TIMEOUT .POST true s2 with
      | (tr, .error e) => (tr, .error e.1)
      | (tr, .ok (_, res)) => (tr, .ok res)

/-- The SpeciesID query of the first attempt of `do_species_data_request`:
when the identifier contains a `-` the part after the first `-` (element 1 of
the split) is used. -/
def speciesIdQuery (sid : String) : String :=
  let id :=
    if sid.toList.contains '-' then String.mk ((pySplitDash sid.toList).getD 1 [])
    else sid
  "SELECT ALL WHERE SpeciesID=" ++ id

/-- The VAMDCSpeciesID query of the final attempt of
`do_species_data_request`. -/
def vamdcSpeciesIdQuery (vid : String) : String :=
  "SELECT ALL WHERE VAMDCSpeciesID='" ++ vid ++ "'"

/-- Module level `do_species_data_request`: set the node on a fresh request,
try the SpeciesID query (any failure is printed and leaves no result), then,
when no result was obtained and a VAMDCSpeciesID was supplied, try the
VAMDCSpeciesID query (any failure is printed and `None` is returned). -/
def do_species_data_request (reg : Registry) (net : Net) (node : NodeArg)
    (species_id : Option String) (vamdcspecies_id : Option String) :
    List WireReq × Except PyErr (Option Result) :=
  match Request.setnode reg Request.init node with
  | .error e => ([], .error e.1)
  | .ok s1 =>
    let first : List WireReq × Request × Option Result :=
      match species_id with
      | none => ([], s1, none)
      | some sid =>
        let s2 := Request.setquery s1 (.str (speciesIdQuery sid))
        match Request.dorequest net TIMEOUT .POST true s2 with
        | (tr, .error e) => (tr, e.2, none)
        | (tr, .ok (s3, res)) => (tr, s3, res)
    match vamdcspecies_id, first.2.2 with
    | some vid, none =>
      let s3 := Request.setquery first.2.1 (.str (vamdcSpeciesIdQuery vid))
      match Request.dorequest net TIMEOUT .POST true s3 with
      | (tr2, .error _) => (first.1 ++ tr2, .ok none)
      | (tr2, .ok (_, res)) => (first.1 ++ tr2, .ok res)
    | _, _ => (first.1, .ok first.2.2)

/-- The network location a transaction talks to, as derived from the session's
base url `b` and query path `p`. -/
def requestNetloc (b p : String) : String :=
  (urlsplit (b ++ p)).netloc

/-- The request target sent on the wire (`urlobj.path + "?" + urlobj.query`)
for base url `b` and query path `p`. -/
def requestTarget (b p : String) : String :=
  (urlsplit (b ++ p)).path ++ "?" ++ (urlsplit (b ++ p)).query

/-- Concrete session used to exercise the transactions: base url and query
path are set, everything else is fresh. -/
def sessW : Request :=
  { Request.init with
      baseurl := some "http://node.example/tap/sync?"
      querypath := some "REQUEST=R&LANG=L&FORMAT=F&QUERY=Q" }

/-- Concrete session whose status is 200, used to observe the status reset
performed by `setquery`. -/
def sessOK : Request :=
  { Request.init with status := 200, reason := "OK" }

/-- Concrete node with a slash-terminated url. -/
def nodeN : Node :=
  { name := "n", url := "http://n.org/" }

/-- A remote side answering every POST with 400 and every other method with
200. -/
def netA : Net := fun m _ _ =>
  match m with
  | .POST => .resp { status := 400, reason := "Bad Request", body := "", headers := [] }
  | _ => .resp { status := 200, reason := "OK", body := "XMLDOC", headers := [] }

/-- A remote side answering every request with 400. -/
def netB : Net := fun _ _ _ =>
  .resp { status := 400, reason := "Bad Request", body := "", headers := [] }

/-- A remote side answering every HEAD with 204 and anything else with 200. -/
def netC : Net := fun m _ _ =>
  match m with
  | .HEAD => .resp { status := 204, reason := "No Content", body := "", headers := [] }
  | _ => .resp { status := 200, reason := "OK", body := "", headers := [] }

/-- A remote side on which every transaction hits the socket timeout. -/
def timeoutNet : Net := fun _ _ _ => .timeout

/-- A remote side answering every request with 200 and a `last-modified`
header that no date parser accepts. -/
def lmNet : Net := fun _ _ _ =>
  .resp { status := 200, reason := "OK", body := "",
          headers := [("last-modified", "garbage")] }

/-- Concrete session for the `getlastmodified` scenario. -/
def lmSession : Request :=
  { Request.init with
      baseurl := some "http://node.example/sync?"
      querypath := some "REQUEST=R" }

/-- A date parser that rejects every input. -/
def failParser : String → Option Nat := fun _ => none

/-- The session produced by `setnode` on a fresh request for `nodeN`. -/
def sVamFix : Request :=
  { Request.init with node := some nodeN, baseurl := some "http://n.org/sync?" }

theorem timeoutNet_timeout (m : HttpMethod) (nl tg : String) :
    timeoutNet m nl tg = .timeout := rfl

theorem dorequest_eq_timeout (net : Net) (t : Nat) (m : HttpMethod) (px : Bool)
    (self : Request) (b p : String) (hb : self.baseurl = some b)
    (hp : self.querypath = some p)
    (hnet : net m (requestNetloc b p) (requestTarget b p) = .timeout) :
    Request.dorequest net t m px self =
      ([{ method := m, netloc := requestNetloc b p, target := requestTarget b p,
          timeout := t }],
       .error (.timeOutError,
               { self with xml := none, status := 408, reason := "Socket timeout" })) := by
  rw [Request.dorequest]
  simp only [requestNetloc, requestTarget] at hnet
  simp [requestNetloc, requestTarget, hb, hp, hnet]

theorem dorequest_eq_post400 (net : Net) (t : Nat) (px : Bool)
    (self : Request) (b p : String) (res : HttpResponse)
    (hb : self.baseurl = some b) (hp : self.querypath = some p)
    (hnet : net .POST (requestNetloc b p) (requestTarget b p) = .resp res)
    (h400 : res.status = 400) :
    Request.dorequest net t .POST px self =
      ({ method := .POST, netloc := requestNetloc b p, target := requestTarget b p,
         timeout := t } ::
         (Request.dorequest net TIMEOUT .GET px
            { self with xml := none, status := res.status, reason := res.reason }).1,
       (Request.dorequest net TIMEOUT .GET px
          { self with xml := none, status := res.status, reason := res.reason }).2) := by
  rw [Request.dorequest]
  simp only [requestNetloc, requestTarget] at hnet
  simp only [requestNetloc, requestTarget, hb, hp, hnet]
  cases px <;> simp [h400]

theorem dorequest_eq_resp_other (net : Net) (t : Nat) (m : HttpMethod) (px : Bool)
    (self : Request) (b p : String) (res : HttpResponse)
    (hb : self.baseurl = some b) (hp : self.querypath = some p)
    (hnet : net m (requestNetloc b p) (requestTarget b p) = .resp res)
    (h200 : res.status ≠ 200) (hpg : ¬(res.status = 400 ∧ m = HttpMethod.POST)) :
    Request.dorequest net t m px self =
      ([{ method := m, netloc := requestNetloc b p, target := requestTarget b p,
          timeout := t }],
       .ok ({ self with xml := none, status := res.status, reason := res.reason },
            none)) := by
  rw [Request.dorequest]
  simp only [requestNetloc, requestTarget] at hnet
  simp only [requestNetloc, requestTarget, hb, hp, hnet]
  cases px <;> simp [h200, hpg]

theorem dorequest_trace_get (net : Net) (t : Nat) (px : Bool)
    (self : Request) (b p : String) (hb : self.baseurl = some b)
    (hp : self.querypath = some p) :
    (Request.dorequest net t .GET px self).1 =
      [{ method := .GET, netloc := requestNetloc b p, target := requestTarget b p,
         timeout := t }] := by
  rw [Request.dorequest]
  simp only [requestNetloc, requestTarget, hb, hp]
  cases hnet : net .GET (urlsplit (b ++ p)).netloc
      ((urlsplit (b ++ p)).path ++ "?" ++ (urlsplit (b ++ p)).query) with
  | timeout => simp [hnet]
  | resp res =>
    simp only [hnet]
    cases px <;> by_cases h200 : res.status = 200 <;> simp [h200]

theorem doheadrequest_eq_timeout (net : Net) (t : Nat) (self : Request) (b p : String)
    (hb : self.baseurl = some b) (hp : self.querypath = some p)
    (hnet : net .HEAD (requestNetloc b p) (requestTarget b p) = .timeout) :
    Request.doheadrequest net t self =
      ([{ method := .HEAD, netloc := requestNetloc b p, target := requestTarget b p,
          timeout := t }],
       .error (.timeOutError,
               { self with
                  headers := some []
                  status := 408
                  reason := "Socket timeout" })) := by
  rw [Request.doheadrequest]
  simp only [requestNetloc, requestTarget] at hnet
  simp [requestNetloc, requestTarget, hb, hp, hnet]

theorem doheadrequest_eq_resp (net : Net) (t : Nat) (self : Request) (b p : String)
    (res : HttpResponse)
    (hb : self.baseurl = some b) (hp : self.querypath = some p)
    (hnet : net .HEAD (requestNetloc b p) (requestTarget b p) = .resp res) :
    Request.doheadrequest net t self =
      ([{ method := .HEAD, netloc := requestNetloc b p, target := requestTarget b p,
          timeout := t }],
       .ok { self with
              status := res.status
              reason := res.reason
              headers := some (dictOfPairs
                (if res.status = 200 then res.headers.map (fun kv => (kv.1, HVal.str kv.2))
                 else default_headers)) }) := by
  rw [Request.doheadrequest]
  simp only [requestNetloc, requestTarget] at hnet
  simp only [requestNetloc, requestTarget, hb, hp, hnet]
  by_cases h200 : res.status = 200
  · simp [h200]
  · by_cases h204 : res.status = 204 <;> by_cases h408 : res.status = 408 <;>
      simp [h200, h204, h408]

theorem foldl_dictInsert_fresh (ps : List (String × HVal)) :
    ∀ d : List (String × HVal), (ps.map Prod.fst).Nodup →
      (∀ k, k ∈ ps.map Prod.fst → k ∉ d.map Prod.fst) →
      ps.foldl (fun d kv => dictInsert d kv.1 kv.2) d = d ++ ps := by
  induction ps with
  | nil => intro d _ _; simp
  | cons kv tl ih =>
    intro d hnd hdisj
    simp only [List.map_cons, List.nodup_cons] at hnd
    have hk : kv.1 ∉ d.map Prod.fst := hdisj kv.1 (by simp)
    have hins : dictInsert d kv.1 kv.2 = d ++ [(kv.1, kv.2)] := by
      unfold dictInsert
      rw [if_neg hk]
    have hdisj2 : ∀ k, k ∈ List.map Prod.fst tl →
        k ∉ List.map Prod.fst (d ++ [(kv.1, kv.2)]) := by
      intro k hk2
      have h1 : k ∉ List.map Prod.fst d := hdisj k (by simp [hk2])
      have h2 : k ≠ kv.1 := fun he => hnd.1 (he ▸ hk2)
      simp [h1, h2]
    rw [List.foldl_cons, hins, ih (d ++ [(kv.1, kv.2)]) hnd.2 hdisj2]
    simp

theorem dictOfPairs_of_nodup (ps : List (String × HVal))
    (h : (ps.map Prod.fst).Nodup) : dictOfPairs ps = ps := by
  have h2 := foldl_dictInsert_fresh ps [] h (by simp)
  simpa [dictOfPairs] using h2

theorem findIdx_dash_append (l1 l2 : List Char) (h : '-' ∉ l1) :
    (l1 ++ '-' :: l2).findIdx? (fun c => c = '-') = some l1.length := by
  induction l1 with
  | nil => simp [List.findIdx?_cons]
  | cons c cs ih =>
    have hc : c ≠ '-' := fun he => h (by simp [he])
    have hcs : '-' ∉ cs := fun hm => h (List.mem_cons_of_mem _ hm)
    simp [List.findIdx?_cons, hc, ih hcs]

theorem pyDashSlice_append (t1 t2 : String) (h : '-' ∉ t1.toList) :
    pyDashSlice (t1 ++ "-" ++ t2) = t2 := by
  unfold pyDashSlice
  have hdata : (t1 ++ "-" ++ t2).toList = t1.toList ++ '-' :: t2.toList := by
    have h2 : (t1 ++ "-" ++ t2).toList = t1.toList ++ "-".toList ++ t2.toList := rfl
    simpa using h2
  rw [hdata, findIdx_dash_append t1.toList t2.toList h]
  show String.mk (List.drop (t1.toList.length + 1) (t1.toList ++ '-' :: t2.toList)) = t2
  have hsplit : t1.toList ++ '-' :: t2.toList = (t1.toList ++ ['-']) ++ t2.toList := by simp
  have hlen : t1.toList.length + 1 = (t1.toList ++ ['-']).length := by simp
  rw [hsplit, hlen, List.drop_left]
  rfl

/-- C1: a `dorequest` POST transaction answered with status 400 re-invokes
`dorequest` exactly once, with method GET, on the identical query path (same
network location and request target) and the same `parsexsams` flag, and
returns that sub-call's outcome unchanged; a GET transaction answered with
status 400 issues no further request and returns no result (`none`). -/
theorem dorequest_post400_get_fallback (net : Net) (t : Nat) (px : Bool)
    (self : Request) (b p : String)
    (hb : self.baseurl = some b) (hp : self.querypath = some p) :
    (∀ res : HttpResponse,
       net .POST (requestNetloc b p) (requestTarget b p) = .resp res →
       res.status = 400 →
       Request.dorequest net t .POST px self =
         ({ method := .POST, netloc := requestNetloc b p,
            target := requestTarget b p, timeout := t } ::
            (Request.dorequest net TIMEOUT .GET px
               { self with xml := none, status := res.status, reason := res.reason }).1,
          (Request.dorequest net TIMEOUT .GET px
             { self with xml := none, status := res.status, reason := res.reason }).2) ∧
       (Request.dorequest net TIMEOUT .GET px
          { self with xml := none, status := res.status, reason := res.reason }).1 =
         [{ method := .GET, netloc := requestNetloc b p,
            target := requestTarget b p, timeout := TIMEOUT }]) ∧
    (∀ res : HttpResponse,
       net .GET (requestNetloc b p) (requestTarget b p) = .resp res →
       res.status = 400 →
       Request.dorequest net t .GET px self =
         ([{ method := .GET, netloc := requestNetloc b p,
             target := requestTarget b p, timeout := t }],
          .ok ({ self with xml := none, status := res.status, reason := res.reason },
               none))) := by
  constructor
  · intro res hnet h400
    refine ⟨dorequest_eq_post400 net t px self b p res hb hp hnet h400, ?_⟩
    exact dorequest_trace_get net TIMEOUT px _ b p (by simp [hb]) (by simp [hp])
  · intro res hnet h400
    refine dorequest_eq_resp_other net t .GET px self b p res hb hp hnet ?_ ?_
    · simp [h400]
    · simp

/-- Witness for C1 on the concrete session `sessW` and the remote sides
`netA` (POST answered 400, GET answered 200) and `netB` (everything answered
400). -/
theorem dorequest_post400_get_fallback_witness :
    (Request.dorequest netA 5 .POST true sessW =
       ({ method := .POST, netloc := "node.example",
          target := "/tap/sync?REQUEST=R&LANG=L&FORMAT=F&QUERY=Q", timeout := 5 } ::
          (Request.dorequest netA TIMEOUT .GET true
             { sessW with xml := none, status := 400, reason := "Bad Request" }).1,
        (Request.dorequest netA TIMEOUT .GET true
           { sessW with xml := none, status := 400, reason := "Bad Request" }).2)) ∧
    (Request.dorequest netA TIMEOUT .GET true
       { sessW with xml := none, status := 400, reason := "Bad Request" }).1 =
      [{ method := .GET, netloc := "node.example",
         target := "/tap/sync?REQUEST=R&LANG=L&FORMAT=F&QUERY=Q", timeout := TIMEOUT }] ∧
    Request.dorequest netB 7 .GET true sessW =
      ([{ method := .GET, netloc := "node.example",
          target := "/tap/sync?REQUEST=R&LANG=L&FORMAT=F&QUERY=Q", timeout := 7 }],
       .ok ({ sessW with xml := none, status := 400, reason := "Bad Request" }, none)) := by
  have h1 := (dorequest_post400_get_fallback netA 5 true sessW
      "http://node.example/tap/sync?" "REQUEST=R&LANG=L&FORMAT=F&QUERY=Q" rfl rfl).1
      { status := 400, reason := "Bad Request", body := "", headers := [] } rfl rfl
  have h2 := (dorequest_post400_get_fallback netB 7 true sessW
      "http://node.example/tap/sync?" "REQUEST=R&LANG=L&FORMAT=F&QUERY=Q" rfl rfl).2
      { status := 400, reason := "Bad Request", body := "", headers := [] } rfl rfl
  exact ⟨h1.1, h1.2, h2⟩

/-- C2: a socket timeout while awaiting the response of a `dorequest` (any
method) or `doheadrequest` transaction sets the session's status to 408 and
its reason to "Socket timeout" and raises `TimeOutError`; the call raises
instead of returning a result value. -/
theorem transaction_timeout_raises (net : Net) (t : Nat) (self : Request)
    (b p : String) (hb : self.baseurl = some b) (hp : self.querypath = some p) :
    (∀ (m : HttpMethod) (px : Bool),
       net m (requestNetloc b p) (requestTarget b p) = .timeout →
       Request.dorequest net t m px self =
         ([{ method := m, netloc := requestNetloc b p, target := requestTarget b p,
             timeout := t }],
          .error (.timeOutError,
                  { self with
                     xml := none
                     status := 408
                     reason := "Socket timeout" }))) ∧
    (net .HEAD (requestNetloc b p) (requestTarget b p) = .timeout →
       Request.doheadrequest net t self =
         ([{ method := .HEAD, netloc := requestNetloc b p, target := requestTarget b p,
             timeout := t }],
          .error (.timeOutError,
                  { self with
                     headers := some []
                     status := 408
                     reason := "Socket timeout" }))) := by
  constructor
  · intro m px hnet
    exact dorequest_eq_timeout net t m px self b p hb hp hnet
  · intro hnet
    exact doheadrequest_eq_timeout net t self b p hb hp hnet

/-- Witness for C2 on the concrete session `sessW` and the always-timing-out
remote side `timeoutNet`. -/
theorem transaction_timeout_raises_witness :
    Request.dorequest timeoutNet 5 .POST true sessW =
      ([{ method := .POST, netloc := "node.example",
          target := "/tap/sync?REQUEST=R&LANG=L&FORMAT=F&QUERY=Q", timeout := 5 }],
       .error (.timeOutError,
               { sessW with xml := none, status := 408, reason := "Socket timeout" })) ∧
    Request.doheadrequest timeoutNet 5 sessW =
      ([{ method := .HEAD, netloc := "node.example",
          target := "/tap/sync?REQUEST=R&LANG=L&FORMAT=F&QUERY=Q", timeout := 5 }],
       .error (.timeOutError,
               { sessW with
                  headers := some []
                  status := 408
                  reason := "Socket timeout" })) := by
  have h := transaction_timeout_raises timeoutNet 5 sessW
      "http://node.example/tap/sync?" "REQUEST=R&LANG=L&FORMAT=F&QUERY=Q" rfl rfl
  exact ⟨h.1 .POST true rfl, h.2 rfl⟩

/-- C10: when a POST `dorequest` with caller-supplied timeout `t` is answered
with status 400, the recursive GET fallback transaction is opened with the
module default timeout `settings.TIMEOUT`, not with `t`: the issued wire
requests are exactly the POST with timeout `t` followed by the GET with
timeout `TIMEOUT`. -/
theorem fallback_uses_default_timeout (net : Net) (t : Nat) (px : Bool)
    (self : Request) (b p : String) (res : HttpResponse)
    (hb : self.baseurl = some b) (hp : self.querypath = some p)
    (hnet : net .POST (requestNetloc b p) (requestTarget b p) = .resp res)
    (h400 : res.status = 400) :
    (Request.dorequest net t .POST px self).1 =
      [{ method := .POST, netloc := requestNetloc b p, target := requestTarget b p,
         timeout := t },
       { method := .GET, netloc := requestNetloc b p, target := requestTarget b p,
         timeout := TIMEOUT }] := by
  rw [dorequest_eq_post400 net t px self b p res hb hp hnet h400]
  simp only []
  rw [dorequest_trace_get net TIMEOUT px _ b p (by simp [hb]) (by simp [hp])]

/-- Witness for C10 with caller timeout 99 (different from the default). -/
theorem fallback_uses_default_timeout_witness :
    (Request.dorequest netA 99 .POST true sessW).1 =
      [{ method := .POST, netloc := "node.example",
         target := "/tap/sync?REQUEST=R&LANG=L&FORMAT=F&QUERY=Q", timeout := 99 },
       { method := .GET, netloc := "node.example",
         target := "/tap/sync?REQUEST=R&LANG=L&FORMAT=F&QUERY=Q", timeout := TIMEOUT }] ∧
    (99 : Nat) ≠ TIMEOUT := by
  refine ⟨?_, by decide⟩
  exact fallback_uses_default_timeout netA 99 true sessW
    "http://node.example/tap/sync?" "REQUEST=R&LANG=L&FORMAT=F&QUERY=Q"
    { status := 400, reason := "Bad Request", body := "", headers := [] } rfl rfl rfl rfl

/-- C3: after a `doheadrequest` that receives a response (no timeout): if the
status is 200 the header mapping is populated verbatim from the headers
returned by the transaction (stated for duplicate-free header keys, on which
dict insertion is the identity); for 204, 408 and any other status different
from 200 the mapping is exactly the eight vamdc metadata keys, each with
value 0, in the order the code builds them. -/
theorem doheadrequest_metadata_mapping (net : Net) (t : Nat) (self : Request)
    (b p : String) (res : HttpResponse)
    (hb : self.baseurl = some b) (hp : self.querypath = some p)
    (hnet : net .HEAD (requestNetloc b p) (requestTarget b p) = .resp res) :
    (res.status = 200 → (res.headers.map Prod.fst).Nodup →
       Request.doheadrequest net t self =
         ([{ method := .HEAD, netloc := requestNetloc b p,
             target := requestTarget b p, timeout := t }],
          .ok { self with
                 status := res.status
                 reason := res.reason
                 headers := some (res.headers.map (fun kv => (kv.1, HVal.str kv.2))) })) ∧
    (res.status ≠ 200 →
       Request.doheadrequest net t self =
         ([{ method := .HEAD, netloc := requestNetloc b p,
             target := requestTarget b p, timeout := t }],
          .ok { self with
                 status := res.status
                 reason := res.reason
                 headers := some default_headers })) ∧
    default_headers =
      [("vamdc-count-species", HVal.int 0),
       ("vamdc-count-states", HVal.int 0),
       ("vamdc-truncated", HVal.int 0),
       ("vamdc-count-molecules", HVal.int 0),
       ("vamdc-count-sources", HVal.int 0),
       ("vamdc-approx-size", HVal.int 0),
       ("vamdc-count-radiative", HVal.int 0),
       ("vamdc-count-atoms", HVal.int 0)] := by
  refine ⟨?_, ?_, rfl⟩
  · intro h200 hnd
    rw [doheadrequest_eq_resp net t self b p res hb hp hnet]
    have hkeys : (res.headers.map (fun kv => (kv.1, HVal.str kv.2))).map Prod.fst =
        res.headers.map Prod.fst := by
      rw [List.map_map]
      rfl
    have hdict := dictOfPairs_of_nodup (res.headers.map (fun kv => (kv.1, HVal.str kv.2)))
        (by rw [hkeys]; exact hnd)
    simp [h200, hdict]
  · intro hne
    rw [doheadrequest_eq_resp net t self b p res hb hp hnet]
    have hdict : dictOfPairs default_headers = default_headers := rfl
    simp [hne, hdict]

/-- Witness for C3 on `sessW` against a 200 response with one header and a
204 response. -/
theorem doheadrequest_metadata_mapping_witness :
    Request.doheadrequest lmNet 5 sessW =
      ([{ method := .HEAD, netloc := "node.example",
          target := "/tap/sync?REQUEST=R&LANG=L&FORMAT=F&QUERY=Q", timeout := 5 }],
       .ok { sessW with
              status := 200
              reason := "OK"
              headers := some [("last-modified", HVal.str "garbage")] }) ∧
    Request.doheadrequest netC 5 sessW =
      ([{ method := .HEAD, netloc := "node.example",
          target := "/tap/sync?REQUEST=R&LANG=L&FORMAT=F&QUERY=Q", timeout := 5 }],
       .ok { sessW with
              status := 204
              reason := "No Content"
              headers := some default_headers }) := by
  have h1 := (doheadrequest_metadata_mapping lmNet 5 sessW
      "http://node.example/tap/sync?" "REQUEST=R&LANG=L&FORMAT=F&QUERY=Q"
      { status := 200, reason := "OK", body := "",
        headers := [("last-modified", "garbage")] } rfl rfl rfl).1 rfl (by decide)
  have h2 := (doheadrequest_metadata_mapping netC 5 sessW
      "http://node.example/tap/sync?" "REQUEST=R&LANG=L&FORMAT=F&QUERY=Q"
      { status := 204, reason := "No Content", body := "", headers := [] }
      rfl rfl rfl).2.1 (by decide)
  exact ⟨h1, h2⟩

/-- C4 (amended): after a successful `setnode`, `do_species_data_request`
never propagates a query failure: it always returns a value.  Moreover, when
the first attempt (query by SpeciesID) raises and a VAMDCSpeciesID was
supplied, control falls through to the alternate attempt on the mutated
session, and a failure of that final attempt is also swallowed, the call
returning `none` instead of the error. -/
theorem do_species_data_request_swallows_failures (reg : Registry) (net : Net)
    (node : NodeArg) (species_id vamdcspecies_id : Option String) (s1 : Request)
    (hset : Request.setnode reg Request.init node = .ok s1) :
    (∃ r, (do_species_data_request reg net node species_id vamdcspecies_id).2 =
       Except.ok r) ∧
    (∀ (sid vid : String) (tr : List WireReq) (e : PyErr × Request),
       species_id = some sid → vamdcspecies_id = some vid →
       Request.dorequest net TIMEOUT .POST true
           (Request.setquery s1 (.str (speciesIdQuery sid))) = (tr, .error e) →
       do_species_data_request reg net node species_id vamdcspecies_id =
         (tr ++ (Request.dorequest net TIMEOUT .POST true
                   (Request.setquery e.2 (.str (vamdcSpeciesIdQuery vid)))).1,
          match (Request.dorequest net TIMEOUT .POST true
                   (Request.setquery e.2 (.str (vamdcSpeciesIdQuery vid)))).2 with
          | .error _ => Except.ok none
          | .ok (_, r) => Except.ok r)) := by
  constructor
  · unfold do_species_data_request
    rw [hset]
    dsimp only
    split
    · split
      · exact ⟨_, rfl⟩
      · exact ⟨_, rfl⟩
    · exact ⟨_, rfl⟩
  · intro sid vid tr e hsid hvid hfail
    subst hsid
    subst hvid
    unfold do_species_data_request
    rw [hset]
    dsimp only
    simp only [hfail]
    rcases hh : Request.dorequest net TIMEOUT .POST true
        (Request.setquery e.2 (.str (vamdcSpeciesIdQuery vid))) with ⟨tr2, r2⟩
    cases r2 <;> simp [hh]

/-- Witness for C4 applied to a concrete node and remote side. -/
theorem do_species_data_request_swallows_failures_witness :
    ∃ r, (do_species_data_request [] netA (.byNode nodeN) none (some "XYZ")).2 =
      Except.ok r :=
  (do_species_data_request_swallows_failures [] netA (.byNode nodeN) none
    (some "XYZ") sVamFix rfl).1

/-- C4 counterexample: on a remote side where every transaction hits the
socket timeout, a call with only a VAMDCSpeciesID issues its final-attempt
wire request (the trace is non-empty) whose `dorequest` raises
`TimeOutError`, yet the call returns `ok none`: the failure of the final
attempt is swallowed, not propagated to the caller. -/
theorem do_species_data_request_final_failure_swallowed :
    (do_species_data_request [] timeoutNet (.byNode nodeN) none (some "XYZ")).2 =
      Except.ok none ∧
    (do_species_data_request [] timeoutNet (.byNode nodeN) none (some "XYZ")).1 ≠ [] ∧
    (∀ (m : HttpMethod) (nl tg : String), timeoutNet m nl tg = .timeout) := by
  have hs : Request.setnode [] Request.init (.byNode nodeN) = .ok sVamFix := rfl
  have hd := dorequest_eq_timeout timeoutNet TIMEOUT .POST true
      (Request.setquery sVamFix (.str (vamdcSpeciesIdQuery "XYZ")))
      "http://n.org/sync?"
      "REQUEST=REQUESTKEYWORD&LANG=LANGTAG&FORMAT=FORMATTAG&QUERY=SELECT%20ALL%20WHERE%20VAMDCSpeciesID%3D%27XYZ%27"
      rfl rfl rfl
  refine ⟨?_, ?_, fun _ _ _ => rfl⟩
  · unfold do_species_data_request
    rw [hs]
    dsimp only
    simp only [hd]
  · unfold do_species_data_request
    rw [hs]
    dsimp only
    simp only [hd]
    simp


/-- C5: evaluation of `getlastmodified` at the failing input.  The HEAD
refresh returns 200 with a `last-modified` entry that the date parser
rejects; the parse failure itself is swallowed as specified, but since
`self.lastmodified` was never assigned, the final `return self.lastmodified`
raises AttributeError — contradicting the claim that no error is raised from
the call.  When a timestamp was previously set, the call does swallow the
failure and returns the stale value without error. -/
theorem getlastmodified_parse_failure_behaviour :
    Request.getlastmodified failParser lmNet lmSession =
      ([{ method := .HEAD, netloc := "node.example", target := "/sync?REQUEST=R",
          timeout := TIMEOUT }],
       .error (.attributeError,
               { lmSession with
                  status := 200
                  reason := "OK"
                  headers := some [("last-modified", HVal.str "garbage")] })) ∧
    Request.getlastmodified failParser lmNet
        { lmSession with lastmodified := some (some 5) } =
      ([{ method := .HEAD, netloc := "node.example", target := "/sync?REQUEST=R",
          timeout := TIMEOUT }],
       .ok ({ lmSession with
               status := 200
               reason := "OK"
               headers := some [("last-modified", HVal.str "garbage")]
               lastmodified := some (some 5) },
            some 5)) := by
  exact ⟨rfl, rfl⟩

/-- C6 counterexample: `setbaseurl` with the empty address stores the bare
empty string as base address and raises IndexError from the `baseurl[-1]`
subscript; the stored address ends in neither `sync?` nor `/sync?`. -/
theorem setbaseurl_empty_counterexample :
    Request.setbaseurl Request.init "" =
      .error (.indexError, { Request.init with baseurl := some "" }) ∧
    (∀ pre : String,
       ("" : String) ≠ pre ++ "sync?" ∧ ("" : String) ≠ pre ++ "/sync?") := by
  refine ⟨rfl, ?_⟩
  intro pre
  constructor
  · intro h
    have hl := congrArg String.length h
    rw [String.length_append] at hl
    have h5 : ("sync?" : String).length = 5 := rfl
    have h0 : ("" : String).length = 0 := rfl
    rw [h5, h0] at hl
    omega
  · intro h
    have hl := congrArg String.length h
    rw [String.length_append] at hl
    have h5 : ("/sync?" : String).length = 6 := rfl
    have h0 : ("" : String).length = 0 := rfl
    rw [h5, h0] at hl
    omega

/-- C6 (amended): from any prior session state, after `setnode` with a node
whose url is non-empty, or `setbaseurl` with a non-empty address, the stored
base address is the supplied address extended by `sync?` when its last
character is `/` and by `/sync?` otherwise — in both cases a string of the
form `pre ++ "sync?"` — and `setquery` never touches the base address, so the
invariant survives arbitrary query reassignment. -/
theorem baseurl_normalized_suffix (self : Request) :
    (∀ (reg : Registry) (n : Node), n.url ≠ "" →
       Request.setnode reg self (.byNode n) =
         .ok { self with
                status := 0
                reason := "INIT"
                node := some n
                baseurl := some (if pyLastChar n.url = some '/' then n.url ++ "sync?"
                                 else n.url ++ "/sync?") } ∧
       ∃ pre : String,
         (if pyLastChar n.url = some '/' then n.url ++ "sync?" else n.url ++ "/sync?") =
           pre ++ "sync?") ∧
    (∀ u : String, u ≠ "" →
       Request.setbaseurl self u =
         .ok { self with
                baseurl := some (if pyLastChar u = some '/' then u ++ "sync?"
                                 else u ++ "/sync?") } ∧
       ∃ pre : String,
         (if pyLastChar u = some '/' then u ++ "sync?" else u ++ "/sync?") =
           pre ++ "sync?") ∧
    (∀ a : QueryArg, (Request.setquery self a).baseurl = self.baseurl) := by
  refine ⟨?_, ?_, ?_⟩
  · intro reg n hne
    have hlen : ¬(n.url.length = 0) := by
      intro h0
      apply hne
      have h2 : n.url.toList = [] := List.length_eq_zero.mp h0
      calc n.url = String.mk n.url.toList := rfl
        _ = String.mk [] := by rw [h2]
        _ = "" := rfl
    constructor
    · unfold Request.setnode
      dsimp only
      rw [if_neg hlen]
      by_cases hl : pyLastChar n.url = some '/'
      · rw [if_pos hl, if_pos hl]
      · rw [if_neg hl, if_neg hl]
    · by_cases hl : pyLastChar n.url = some '/'
      · rw [if_pos hl]
        exact ⟨n.url, rfl⟩
      · rw [if_neg hl]
        refine ⟨n.url ++ "/", ?_⟩
        rw [String.append_assoc]
        rfl
  · intro u hne
    have hne2 : u.toList ≠ [] := by
      intro h0
      apply hne
      calc u = String.mk u.toList := rfl
        _ = String.mk [] := by rw [h0]
        _ = "" := rfl
    have hlc : ∃ c, pyLastChar u = some c := by
      cases hu : pyLastChar u with
      | none => exact absurd (List.getLast?_eq_none_iff.mp hu) hne2
      | some c => exact ⟨c, rfl⟩
    rcases hlc with ⟨c, hc⟩
    constructor
    · unfold Request.setbaseurl
      rw [hc]
      dsimp only
      by_cases hcs : c = '/'
      · subst hcs
        simp
      · simp [hcs]
    · by_cases hl : pyLastChar u = some '/'
      · rw [if_pos hl]
        exact ⟨u, rfl⟩
      · rw [if_neg hl]
        refine ⟨u ++ "/", ?_⟩
        rw [String.append_assoc]
        rfl
  · intro a
    cases a <;> rfl

/-- Witness for C6 on a slash-terminated node url and a bare address. -/
theorem baseurl_normalized_suffix_witness :
    (Request.setnode [] Request.init (.byNode nodeN) =
       .ok { Request.init with
              node := some nodeN
              baseurl := some ("http://n.org/" ++ "sync?") } ∧
     ∃ pre : String,
       (if pyLastChar ("http://n.org/" : String) = some '/'
        then ("http://n.org/" : String) ++ "sync?" else "http://n.org/" ++ "/sync?") =
         pre ++ "sync?") ∧
    (Request.setbaseurl Request.init "http://x.org" =
       .ok { Request.init with baseurl := some ("http://x.org" ++ "/sync?") } ∧
     ∃ pre : String,
       (if pyLastChar ("http://x.org" : String) = some '/'
        then ("http://x.org" : String) ++ "sync?" else "http://x.org" ++ "/sync?") =
         pre ++ "sync?") := by
  have h := baseurl_normalized_suffix Request.init
  exact ⟨h.1 [] nodeN (by decide), h.2.1 "http://x.org" (by decide)⟩

/-- C7: `gettransitions` given a string species identifier strips everything
up to and including the first `-` and parses the remainder as an integer
before building the query: for any dash-free prefix the query built from
`pre ++ "-" ++ rest` is determined by `int(rest)`; in particular "7-123"
yields the query fragment `SpeciesID = 123` and the integer 42 yields
`SpeciesID = 42`. -/
theorem gettransitions_strip_rule (t1 t2 : String) (h : '-' ∉ t1.toList) :
    gettransitions_querystring (.str (t1 ++ "-" ++ t2)) =
      (pyInt t2).map
        (fun n => "SELECT RadiativeTransitions WHERE SpeciesID = " ++ toString n) ∧
    gettransitions_querystring (.str "7-123") =
      some "SELECT RadiativeTransitions WHERE SpeciesID = 123" ∧
    gettransitions_querystring (.int 42) =
      some "SELECT RadiativeTransitions WHERE SpeciesID = 42" := by
  refine ⟨?_, rfl, rfl⟩
  unfold gettransitions_querystring
  dsimp only
  rw [pyDashSlice_append t1 t2 h]

/-- Witness for C7 at the identifier "7-123". -/
theorem gettransitions_strip_rule_witness :
    gettransitions_querystring (.str ("7" ++ "-" ++ "123")) =
      (pyInt "123").map
        (fun n => "SELECT RadiativeTransitions WHERE SpeciesID = " ++ toString n) ∧
    gettransitions_querystring (.str "7-123") =
      some "SELECT RadiativeTransitions WHERE SpeciesID = 123" ∧
    gettransitions_querystring (.int 42) =
      some "SELECT RadiativeTransitions WHERE SpeciesID = 42" :=
  gettransitions_strip_rule "7" "123" (by decide)

/-- C8 counterexample: the query text built by `getspecies` differs from the
claimed text `SELECT SPECIES WHERE ((InchiKey != 'UGFAIRIUMAVXCW'))` (the
code has no spaces around the operator). -/
theorem getspecies_query_text_spacing_counterexample :
    getspecies_querystring ≠ "SELECT SPECIES WHERE ((InchiKey != 'UGFAIRIUMAVXCW'))" := by
  decide

/-- C8 (amended): `getspecies` builds exactly the fixed query text
`SELECT SPECIES WHERE ((InchiKey!='UGFAIRIUMAVXCW'))` — excluding the
sentinel identifier, with no spaces around `!=` — stores it verbatim as the
query body, and executes it with the default request parameters (default
timeout, POST, content parsing on). -/
theorem getspecies_fixed_query (net : Net) (self : Request) :
    getspecies_querystring = "SELECT SPECIES WHERE ((InchiKey!='UGFAIRIUMAVXCW'))" ∧
    ((Request.setquery self (.str getspecies_querystring)).query).map
        (fun q => q.Query) = some getspecies_querystring ∧
    Request.getspecies net self =
      Request.dorequest net TIMEOUT .POST true
        (Request.setquery self (.str getspecies_querystring)) := by
  exact ⟨rfl, rfl, rfl⟩

/-- C9 counterexample: on a session with status 200, `setquery` with an
unrecognized argument does not retain the prior state unchanged: the status
is reset to 0. -/
theorem setquery_unrecognized_counterexample :
    Request.setquery sessOK .other ≠ sessOK ∧
    (Request.setquery sessOK .other).status = 0 ∧ sessOK.status = 200 := by
  refine ⟨by decide, rfl, rfl⟩

/-- C9 (amended): `setquery` with an argument that is neither a recognized
query descriptor nor a string produces no query path and leaves the query
and querypath fields unchanged, but resets the session status to 0 and the
reason to INIT, as the start of every `setquery` call does. -/
theorem setquery_unrecognized_frame (self : Request) :
    Request.setquery self .other = { self with status := 0, reason := "INIT" } ∧
    (Request.setquery self .other).query = self.query ∧
    (Request.setquery self .other).querypath = self.querypath := by
  exact ⟨rfl, rfl, rfl⟩

end Vamdclib
